import Mathlib

/-!
# Verification of the German buy-to-let property analyzer

Shallow embedding of the computational core of
`src/german-property-analyzer.jsx`: the German income-tax calculator
(`calculateGermanTax`, lines 126–175), the 40-year projection engine
(`calculateProjections`, lines 181–368) with its annuity amortization
block and Newton-Raphson IRR solver (`calculateIRR`, lines 310–333), the
sensitivity-analysis layers (`tornadoData`, lines 827–867; `heatmapData`,
lines 870–926) and the heatmap color normalization (`getColor`,
lines 439–451).

Modelling conventions:
* JavaScript `number` arithmetic is embedded as exact rational arithmetic
  (`ℚ`).  `Math.pow` with integral exponents becomes monoid/`zpow` powers,
  `Math.max`/`Math.abs`/`Math.round` become `max`/`|·|`/`round`
  (Mathlib's `round` is `⌊x + 1/2⌋`, matching `Math.round`).
* The source derives the projection start date from the wall clock
  (`new Date()`, line 194).  The clock reading is made an explicit
  `StartDate` parameter of the embedding; the per-year `date` string
  (line 288) is rendered as "YYYY-MM-01" from that parameter.
* `Array.prototype.sort` with the numeric comparator
  `(a, b) => b.range - a.range` (line 866) is a stable descending sort by
  `range`; it is embedded as `List.insertionSort` with the relation
  `fun a b => b.range ≤ a.range`, which is stable and sorts descending.
* The dynamically keyed overrides `{ ...inputs, [key]: value }` are
  embedded via an enumeration `PKey` of the numeric fields of
  `PropertyInputs` and an explicit update function `setKey`.
-/

/-- Marital status, source `'single' | 'married'`. -/
inductive MaritalStatus where
  | single : MaritalStatus
  | married : MaritalStatus
deriving DecidableEq

/-- The `PropertyInputs` value object (source lines 8–44).  All rate
fields are whole-number percentages. -/
structure PropertyInputs where
  purchasePrice : ℚ
  notaryAndLandRegistryFees : ℚ
  realEstateTransferTax : ℚ
  brokerCommission : ℚ
  renovationCosts : ℚ
  equity : ℚ
  interestRate : ℚ
  repaymentRate : ℚ
  monthlyRent : ℚ
  monthlyPropertyManagement : ℚ
  monthlyMaintenance : ℚ
  monthlyInsurance : ℚ
  monthlyOtherCosts : ℚ
  rentIncreaseRate : ℚ
  propertyValueIncreaseRate : ℚ
  operatingCostsIncreaseRate : ℚ
  annualIncome : ℚ
  maritalStatus : MaritalStatus
  marginalTaxRate : ℚ
  churchTaxLiability : Bool
  vacancyRate : ℚ
  depreciationRate : ℚ

/-- Result record of `calculateGermanTax` (source line 130). -/
structure TaxResult where
  incomeTax : ℚ
  solidarityTax : ℚ
  churchTax : ℚ
  totalTax : ℚ

/-- First progression zone polynomial (source lines 139–141):
`y = (income - 11604)/10000; tax = (922.98y + 1400)y`. -/
def zoneA (income : ℚ) : ℚ :=
  (922.98 * ((income - 11604) / 10000) + 1400) * ((income - 11604) / 10000)

/-- Second progression zone polynomial (source lines 143–145):
`z = (income - 17005)/10000; tax = (181.19z + 2397)z + 1025.38`. -/
def zoneB (income : ℚ) : ℚ :=
  (181.19 * ((income - 17005) / 10000) + 2397) * ((income - 17005) / 10000) + 1025.38

/-- Third progression zone (source line 148): `0.42·income − 10602.13`. -/
def zoneLinear42 (income : ℚ) : ℚ := 0.42 * income - 10602.13

/-- Top rate zone (source line 151): `0.45·income − 18936.88`. -/
def zoneLinear45 (income : ℚ) : ℚ := 0.45 * income - 18936.88

/-- The five-zone 2024/2025 piecewise income-tax formula applied to the
(possibly split) income, source lines 135–152. -/
def taxFormula (income : ℚ) : ℚ :=
  if income ≤ 11604 then 0
  else if income ≤ 17005 then zoneA income
  else if income ≤ 66760 then zoneB income
  else if income ≤ 277825 then zoneLinear42 income
  else zoneLinear45 income

/-- `calculateGermanTax` (source lines 126–175).  Married income is
halved before the formula and the result doubled (splitting); the
solidarity surcharge uses the simplified `×0.055×1.2` linear phase-in;
church tax is 8% of the (signed) income tax. -/
def calculateGermanTax (taxableIncome : ℚ) (maritalStatus : MaritalStatus)
    (churchTax : Bool) : TaxResult :=
  let income := if maritalStatus = .married then taxableIncome / 2 else taxableIncome
  let incomeTax₀ := taxFormula income
  let incomeTax := if maritalStatus = .married then incomeTax₀ * 2 else incomeTax₀
  let solidarityThreshold : ℚ := if maritalStatus = .married then 32734 else 16369
  let solidarityTax :=
    if solidarityThreshold < incomeTax then (incomeTax - solidarityThreshold) * 0.055 * 1.2
    else 0
  let churchTaxAmount := if churchTax then incomeTax * 0.08 else 0
  { incomeTax := max 0 incomeTax
    solidarityTax := max 0 solidarityTax
    churchTax := churchTaxAmount
    totalTax := max 0 (incomeTax + solidarityTax + churchTaxAmount) }

theorem zoneA_nonneg {income : ℚ} (h : 11604 ≤ income) : 0 ≤ zoneA income := by
  have hy : (0 : ℚ) ≤ (income - 11604) / 10000 :=
    div_nonneg (by linarith) (by norm_num)
  have h1 : (0 : ℚ) ≤ 922.98 * ((income - 11604) / 10000) + 1400 := by
    have := mul_nonneg (show (0 : ℚ) ≤ 922.98 by norm_num) hy
    linarith
  exact mul_nonneg h1 hy

theorem zoneB_nonneg {income : ℚ} (h : 17005 ≤ income) : 0 ≤ zoneB income := by
  have hz : (0 : ℚ) ≤ (income - 17005) / 10000 :=
    div_nonneg (by linarith) (by norm_num)
  have h1 : (0 : ℚ) ≤ 181.19 * ((income - 17005) / 10000) + 2397 := by
    have := mul_nonneg (show (0 : ℚ) ≤ 181.19 by norm_num) hz
    linarith
  have h2 := mul_nonneg h1 hz
  have h3 : (0 : ℚ) ≤ 1025.38 := by norm_num
  unfold zoneB
  linarith

theorem zoneLinear42_nonneg {income : ℚ} (h : 66760 ≤ income) :
    0 ≤ zoneLinear42 income := by
  unfold zoneLinear42
  have : (0.42 : ℚ) * 66760 ≤ 0.42 * income := by
    have : (0 : ℚ) ≤ 0.42 := by norm_num
    exact mul_le_mul_of_nonneg_left h this
  norm_num at this ⊢
  linarith

theorem zoneLinear45_nonneg {income : ℚ} (h : 277825 ≤ income) :
    0 ≤ zoneLinear45 income := by
  unfold zoneLinear45
  have : (0.45 : ℚ) * 277825 ≤ 0.45 * income := by
    have : (0 : ℚ) ≤ 0.45 := by norm_num
    exact mul_le_mul_of_nonneg_left h this
  norm_num at this ⊢
  linarith

/-- The raw piecewise formula is nonnegative on every branch. -/
theorem taxFormula_nonneg (income : ℚ) : 0 ≤ taxFormula income := by
  unfold taxFormula
  split_ifs with h1 h2 h3 h4
  · exact le_refl 0
  · exact zoneA_nonneg (by linarith)
  · exact zoneB_nonneg (by linarith)
  · exact zoneLinear42_nonneg (by linarith)
  · exact zoneLinear45_nonneg (by linarith)

/-- C7: For every taxable income (including negative values), every
marital status, and either church-tax flag, all four outputs of
`calculateGermanTax` — `incomeTax`, `solidarityTax`, `churchTax` and
`totalTax` — are greater than or equal to 0. -/
theorem tax_outputs_nonneg (t : ℚ) (ms : MaritalStatus) (ct : Bool) :
    0 ≤ (calculateGermanTax t ms ct).incomeTax ∧
    0 ≤ (calculateGermanTax t ms ct).solidarityTax ∧
    0 ≤ (calculateGermanTax t ms ct).churchTax ∧
    0 ≤ (calculateGermanTax t ms ct).totalTax := by
  refine ⟨le_max_left 0 _, le_max_left 0 _, ?_, le_max_left 0 _⟩
  cases ms <;> cases ct <;>
    simp only [calculateGermanTax, reduceCtorEq, if_false, if_true, reduceIte] <;>
    linarith [taxFormula_nonneg t, taxFormula_nonneg (t / 2)]

/-- C6 counterexample: the zone-A and zone-B polynomials do NOT agree at
income 17,005 to floating precision — the exact gap is 6.590698·10⁻⁴,
far above double-precision rounding error at that magnitude — and the
zone-B/linear-zone gap at 66,760 is 5.07092975·10⁻², so the piecewise
formula is not continuous at those boundaries to floating precision. -/
theorem tax_zone_boundary_gap :
    ¬ (|zoneA 17005 - zoneB 17005| ≤ 1 / 1000000 ∧
       |zoneB 66760 - zoneLinear42 66760| ≤ 1 / 1000000) := by
  intro h
  have h1 : zoneA 17005 - zoneB 17005 = 6590698 / 10000000000 := by
    norm_num [zoneA, zoneB]
  have h2 : zoneB 66760 - zoneLinear42 66760 = 507092975 / 10000000000 := by
    norm_num [zoneB, zoneLinear42]
  rw [h1, h2] at h
  obtain ⟨ha, hb⟩ := h
  rw [abs_of_pos (by norm_num)] at ha
  norm_num at ha

/-- C6 amended: `taxFormula 11604 = 0` holds exactly, and the zone
boundaries are only approximately continuous: the zone-A/zone-B gap at
17,005 is exactly 6.590698·10⁻⁴ and the zone-B/linear gap at 66,760 is
exactly 5.07092975·10⁻² — within 10⁻³ and 6·10⁻² respectively, but not
within floating precision. -/
theorem tax_boundary_continuity_approx :
    taxFormula 11604 = 0 ∧
    zoneA 17005 - zoneB 17005 = 6590698 / 10000000000 ∧
    zoneB 66760 - zoneLinear42 66760 = 507092975 / 10000000000 := by
  refine ⟨?_, ?_, ?_⟩
  · norm_num [taxFormula]
  · norm_num [zoneA, zoneB]
  · norm_num [zoneB, zoneLinear42]

/-- Total acquisition cost (source lines 183–188): purchase price scaled
by the three acquisition-cost percentages plus renovation costs. -/
def acquisitionCosts (i : PropertyInputs) : ℚ :=
  i.purchasePrice *
    (1 + i.notaryAndLandRegistryFees / 100 + i.realEstateTransferTax / 100 +
      i.brokerCommission / 100) + i.renovationCosts

/-- Loan principal (source line 190). -/
def loanAmount (i : PropertyInputs) : ℚ := acquisitionCosts i - i.equity

/-- Combined annual payment rate (source lines 225–227):
`interestRate/100 + repaymentRate/100`. -/
def annualPaymentRateOf (ir rr : ℚ) : ℚ := ir / 100 + rr / 100

/-- The outstanding balance before the zero clamp (source lines 230–244):
`loanAmount` in year 0; for `0 < year` with fewer than 360 months passed,
the future value of the principal minus the future value of the fixed
monthly annuity payment (`monthlyRate = c/12`,
`monthlyPayment = L·(c/12)/(1 − (1+c/12)^(−360))`); `0` once the
360-month term is exceeded. -/
def outstandingLoanRaw (L c : ℚ) (year : ℕ) : ℚ :=
  if year = 0 then L
  else if year * 12 < 360 then
    L * (1 + c / 12) ^ (year * 12) -
      L * (c / 12) / (1 - (1 + c / 12) ^ (-(360 : ℤ))) *
        ((1 + c / 12) ^ (year * 12) - 1) / (c / 12)
  else 0

/-- Outstanding balance at the start of a projection year with the zero
clamp of source line 246. -/
def outstandingLoanAt (L c : ℚ) (year : ℕ) : ℚ := max 0 (outstandingLoanRaw L c year)

/-- Annual loan payment for the reporting year (source line 249):
balance times the combined payment rate while the balance is positive. -/
def annualLoanPaymentAt (L ir rr : ℚ) (y : ℕ) : ℚ :=
  if 0 < outstandingLoanAt L (annualPaymentRateOf ir rr) y then
    outstandingLoanAt L (annualPaymentRateOf ir rr) y * annualPaymentRateOf ir rr
  else 0

/-- Interest paid in the reporting year (source line 250). -/
def interestPaidAt (L ir rr : ℚ) (y : ℕ) : ℚ :=
  outstandingLoanAt L (annualPaymentRateOf ir rr) y * (ir / 100)

/-- Principal repaid in the reporting year (source line 251). -/
def principalRepaidAt (L ir rr : ℚ) (y : ℕ) : ℚ :=
  annualLoanPaymentAt L ir rr y - interestPaidAt L ir rr y

/-- Closed form of the annuity balance:
`(L/D)·(1 − a^(12·year)/a^360)` with `a = 1 + c/12`, `D = 1 − (a^360)⁻¹`. -/
def loanClosedForm (L c : ℚ) (year : ℕ) : ℚ :=
  L / (1 - ((1 + c / 12) ^ (360 : ℕ))⁻¹) *
    (1 - (1 + c / 12) ^ (year * 12) / (1 + c / 12) ^ (360 : ℕ))

theorem annuity_fv_eq (L A P m : ℚ) (hm : m ≠ 0) (hP : P ≠ 0)
    (hP1 : P - 1 ≠ 0) :
    L * A - L * m / (1 - P⁻¹) * (A - 1) / m = L / (1 - P⁻¹) * (1 - A / P) := by
  have key : 1 - P⁻¹ = (P - 1) / P := by
    field_simp
  rw [key]
  field_simp
  ring

theorem annuity_fv_zero (L P : ℚ) (hP : P ≠ 0) (hP1 : P - 1 ≠ 0) :
    L = L / (1 - P⁻¹) * (1 - 1 / P) := by
  have key : 1 - P⁻¹ = (P - 1) / P := by
    field_simp
  rw [key]
  field_simp

theorem one_lt_annuity_pow {c : ℚ} (hc : 0 < c) :
    (1 : ℚ) < (1 + c / 12) ^ (360 : ℕ) :=
  one_lt_pow₀ (by linarith) (by norm_num)

theorem annuity_denom_pos {c : ℚ} (hc : 0 < c) :
    0 < 1 - ((1 + c / 12) ^ (360 : ℕ))⁻¹ := by
  have h1 := one_lt_annuity_pow (c := c) hc
  generalize hP : (1 + c / 12 : ℚ) ^ (360 : ℕ) = P at h1
  have h2 : P⁻¹ < 1 := inv_lt_one_of_one_lt₀ h1
  linarith

set_option maxRecDepth 4000 in
/-- On the in-term branches (year = 0 or year·12 < 360) the source's
future-value expression equals the closed form. -/
theorem outstandingLoanRaw_eq_closedForm {L c : ℚ} (hc : 0 < c) (year : ℕ)
    (hy : year * 12 < 360) : outstandingLoanRaw L c year = loanClosedForm L c year := by
  have hm : (c / 12 : ℚ) ≠ 0 := ne_of_gt (by linarith)
  have ha : (1 + c / 12 : ℚ) ≠ 0 := ne_of_gt (by linarith)
  have hpow : ((1 + c / 12 : ℚ) ^ (360 : ℕ)) ≠ 0 := pow_ne_zero _ ha
  have hP1 : ((1 + c / 12 : ℚ) ^ (360 : ℕ)) - 1 ≠ 0 :=
    sub_ne_zero_of_ne (ne_of_gt (one_lt_annuity_pow hc))
  have hz : (1 + c / 12 : ℚ) ^ (-(360 : ℤ)) = ((1 + c / 12) ^ (360 : ℕ))⁻¹ := by
    rw [zpow_neg]
    norm_cast
  rcases Nat.eq_zero_or_pos year with h0 | h0
  · subst h0
    unfold outstandingLoanRaw loanClosedForm
    rw [if_pos rfl, Nat.zero_mul, pow_zero]
    exact annuity_fv_zero L _ hpow hP1
  · have hne : year ≠ 0 := Nat.pos_iff_ne_zero.mp h0
    unfold outstandingLoanRaw loanClosedForm
    rw [if_neg hne, if_pos hy, hz]
    exact annuity_fv_eq L _ _ _ hm hpow hP1

theorem annuity_step_abstract {L D A B P : ℚ} (hLD : 0 ≤ L / D) (hP : 0 < P)
    (hAB : A ≤ B) : L / D * (1 - B / P) ≤ L / D * (1 - A / P) := by
  gcongr

theorem loanClosedForm_succ_le {L c : ℚ} (hc : 0 < c) (hL : 0 < L) (y : ℕ) :
    loanClosedForm L c (y + 1) ≤ loanClosedForm L c y := by
  unfold loanClosedForm
  refine annuity_step_abstract (le_of_lt (div_pos hL (annuity_denom_pos hc)))
    (pow_pos (by linarith) _) ?_
  exact pow_le_pow_right₀ (by linarith) (by omega)

theorem outstandingLoanAt_succ_le {L c : ℚ} (hc : 0 < c) (hL : 0 < L) (y : ℕ) :
    outstandingLoanAt L c (y + 1) ≤ outstandingLoanAt L c y := by
  by_cases h1 : (y + 1) * 12 < 360
  · have hy : y * 12 < 360 := by omega
    unfold outstandingLoanAt
    rw [outstandingLoanRaw_eq_closedForm hc _ h1, outstandingLoanRaw_eq_closedForm hc _ hy]
    exact max_le_max (le_refl 0) (loanClosedForm_succ_le hc hL y)
  · have hraw : outstandingLoanRaw L c (y + 1) = 0 := by
      unfold outstandingLoanRaw
      rw [if_neg (Nat.succ_ne_zero y), if_neg h1]
    unfold outstandingLoanAt
    rw [hraw, max_self]
    exact le_max_left 0 _

theorem outstandingLoanAt_antitone {L c : ℚ} (hc : 0 < c) (hL : 0 < L) :
    Antitone (outstandingLoanAt L c) :=
  antitone_nat_of_succ_le (outstandingLoanAt_succ_le hc hL)

theorem outstandingLoanAt_term_zero (L c : ℚ) (y : ℕ) (h : 30 ≤ y) :
    outstandingLoanAt L c y = 0 := by
  have hne : y ≠ 0 := by omega
  have hnl : ¬ (y * 12 < 360) := by omega
  unfold outstandingLoanAt outstandingLoanRaw
  rw [if_neg hne, if_neg hnl, max_self]

/-- C5: for any valid loan (positive principal, positive interest and
repayment rates) the outstanding balance is non-increasing in the elapsed
years and is exactly 0 from elapsed year 30 (month 360) onwards; in any
year with zero balance the annual payment, interest and principal are
all 0. -/
theorem loan_amortization_sound (L ir rr : ℚ)
    (hL : 0 < L) (hir : 0 < ir) (hrr : 0 < rr) :
    (∀ y₁ y₂ : ℕ, y₁ ≤ y₂ →
      outstandingLoanAt L (annualPaymentRateOf ir rr) y₂ ≤
        outstandingLoanAt L (annualPaymentRateOf ir rr) y₁) ∧
    (∀ y : ℕ, 30 ≤ y → outstandingLoanAt L (annualPaymentRateOf ir rr) y = 0) ∧
    (∀ y : ℕ, outstandingLoanAt L (annualPaymentRateOf ir rr) y = 0 →
      annualLoanPaymentAt L ir rr y = 0 ∧ interestPaidAt L ir rr y = 0 ∧
        principalRepaidAt L ir rr y = 0) := by
  have hc : 0 < annualPaymentRateOf ir rr := by
    unfold annualPaymentRateOf
    linarith
  refine ⟨fun y₁ y₂ h => outstandingLoanAt_antitone hc hL h, ?_, ?_⟩
  · exact fun y hy => outstandingLoanAt_term_zero L _ y hy
  · intro y hB
    have hp : annualLoanPaymentAt L ir rr y = 0 := by
      unfold annualLoanPaymentAt
      rw [hB]
      norm_num
    have hi : interestPaidAt L ir rr y = 0 := by
      unfold interestPaidAt
      rw [hB, zero_mul]
    exact ⟨hp, hi, by unfold principalRepaidAt; rw [hp, hi, sub_zero]⟩

/-- Witness for `loan_amortization_sound` at a concrete valid loan. -/
theorem loan_amortization_sound_witness :
    (0 : ℚ) < 100000 ∧ (0 : ℚ) < 3.75 ∧ (0 : ℚ) < 1.4 ∧
    ((∀ y₁ y₂ : ℕ, y₁ ≤ y₂ →
      outstandingLoanAt 100000 (annualPaymentRateOf 3.75 1.4) y₂ ≤
        outstandingLoanAt 100000 (annualPaymentRateOf 3.75 1.4) y₁) ∧
    (∀ y : ℕ, 30 ≤ y → outstandingLoanAt 100000 (annualPaymentRateOf 3.75 1.4) y = 0) ∧
    (∀ y : ℕ, outstandingLoanAt 100000 (annualPaymentRateOf 3.75 1.4) y = 0 →
      annualLoanPaymentAt 100000 3.75 1.4 y = 0 ∧ interestPaidAt 100000 3.75 1.4 y = 0 ∧
        principalRepaidAt 100000 3.75 1.4 y = 0)) :=
  ⟨by norm_num, by norm_num, by norm_num,
    loan_amortization_sound 100000 3.75 1.4 (by norm_num) (by norm_num) (by norm_num)⟩

/-- NPV accumulator of the IRR solver (source lines 315–321):
`npv += flows[j] / (1+rate)^j` over the enumerated series. -/
def npvOf (rate : ℚ) : List ℚ → ℕ → ℚ
  | [], _ => 0
  | f :: fs, j => f / (1 + rate) ^ j + npvOf rate fs (j + 1)

/-- NPV-derivative accumulator of the IRR solver (source line 320):
`dnpv -= j * flows[j] / (1+rate)^(j+1)`. -/
def dnpvOf (rate : ℚ) : List ℚ → ℕ → ℚ
  | [], _ => 0
  | f :: fs, j => -((j : ℚ) * f / (1 + rate) ^ (j + 1)) + dnpvOf rate fs (j + 1)

/-- One Newton-Raphson update (source line 323): `rate - npv/dnpv`. -/
def newtonStep (flows : List ℚ) (rate : ℚ) : ℚ :=
  rate - npvOf rate flows 0 / dnpvOf rate flows 0

/-- The iteration loop of `calculateIRR` (source lines 314–332): up to
`fuel` Newton steps; returns `newRate*100` as soon as `|Δrate| < 0.0001`,
and `rate*100` when the iteration budget is exhausted. -/
def irrLoop (flows : List ℚ) : ℚ → ℕ → ℚ
  | rate, 0 => rate * 100
  | rate, n + 1 =>
    let newRate := newtonStep flows rate
    if |newRate - rate| < 0.0001 then newRate * 100
    else irrLoop flows newRate n

/-- `calculateIRR` (source lines 310–333): prepends `-initialInvestment`
to the series, starts at rate 0.1 with a budget of 100 iterations. -/
def calculateIRR (cashFlows : List ℚ) (initialInvestment : ℚ) : ℚ :=
  irrLoop (-initialInvestment :: cashFlows) 0.1 100

/-- On the all-negative series `[-1, -1]` a Newton step moves the rate up
by `(1+r)² + (1+r)`. -/
theorem newtonStep_neg_ones (r : ℚ) (hr : 1 / 10 ≤ r) :
    newtonStep [(-1 : ℚ), -1] r = r + (1 + r) ^ 2 + (1 + r) := by
  have hx : (1 + r : ℚ) ≠ 0 := by positivity
  unfold newtonStep
  simp only [npvOf, dnpvOf]
  push_cast
  rw [pow_zero, pow_one]
  field_simp
  ring

/-- The Newton iteration on `[-1, -1]` never meets the convergence
tolerance and drifts up by at least 2.31 per step, so after `n` steps the
loop returns at least `(r + 2.31·n)·100`. -/
theorem irrLoop_diverges_neg_ones (n : ℕ) :
    ∀ r : ℚ, 1 / 10 ≤ r → (r + 2.31 * n) * 100 ≤ irrLoop [(-1 : ℚ), -1] r n := by
  induction n with
  | zero =>
    intro r hr
    simp only [irrLoop, Nat.cast_zero]
    linarith
  | succ n ih =>
    intro r hr
    have hstep := newtonStep_neg_ones r hr
    have hgrow : (2.31 : ℚ) ≤ (1 + r) ^ 2 + (1 + r) := by nlinarith
    have hnc : ¬ |newtonStep [(-1 : ℚ), -1] r - r| < 0.0001 := by
      rw [hstep]
      rw [show r + (1 + r) ^ 2 + (1 + r) - r = (1 + r) ^ 2 + (1 + r) by ring]
      rw [abs_of_pos (by nlinarith)]
      intro hlt
      nlinarith
    have hr2 : 1 / 10 ≤ newtonStep [(-1 : ℚ), -1] r := by
      rw [hstep]; nlinarith
    have := ih (newtonStep [(-1 : ℚ), -1] r) hr2
    simp only [irrLoop, if_neg hnc]
    push_cast
    rw [hstep] at this ⊢
    linarith

/-- C2 counterexample: the series `[-1, -1]` (initial outlay 1, one
further cash flow −1) has no sign change, hence no internal rate of
return exists; yet `calculateIRR` exhausts its 100-iteration budget
without converging and returns a plain numeric value of at least 23,110
— a fabricated rate indistinguishable from a successful result, with no
distinct non-convergence signal in its return value. -/
theorem calculateIRR_fabricates_rate :
    23110 ≤ calculateIRR [(-1 : ℚ)] 1 := by
  have h := irrLoop_diverges_neg_ones 100 (1 / 10) (by norm_num)
  have heq : calculateIRR [(-1 : ℚ)] 1 = irrLoop [(-1 : ℚ), -1] (1 / 10) 100 := by
    unfold calculateIRR
    norm_num
  rw [heq]
  push_cast at h
  linarith

/-- The sequence of Newton-Raphson iterates: `newtonIter flows r k` is
the rate after `k` updates from start `r`. -/
def newtonIter (flows : List ℚ) : ℚ → ℕ → ℚ
  | r, 0 => r
  | r, n + 1 => newtonIter flows (newtonStep flows r) n

/-- C2 amended: when no iterate within the budget meets the `0.0001`
tolerance, `calculateIRR`'s loop silently returns the final
Newton-Raphson iterate times 100 — a plain number, with no distinct
non-convergent outcome reported to the caller. -/
theorem irr_budget_exhaustion_returns_estimate (flows : List ℚ) (r : ℚ) (n : ℕ)
    (h : ∀ k, k < n →
      ¬ |newtonStep flows (newtonIter flows r k) - newtonIter flows r k| < 0.0001) :
    irrLoop flows r n = newtonIter flows r n * 100 := by
  induction n generalizing r with
  | zero => rfl
  | succ n ih =>
    have h0 := h 0 (Nat.succ_pos n)
    simp only [newtonIter] at h0
    simp only [irrLoop, if_neg h0, newtonIter]
    exact ih (newtonStep flows r) (fun k hk => h (k + 1) (Nat.succ_lt_succ hk))

/-- Witness for `irr_budget_exhaustion_returns_estimate` on the concrete
series `[-1, -1]` with a budget of 1 iteration. -/
theorem irr_budget_exhaustion_returns_estimate_witness :
    (∀ k, k < 1 →
      ¬ |newtonStep [(-1 : ℚ), -1] (newtonIter [(-1 : ℚ), -1] 0.1 k) -
          newtonIter [(-1 : ℚ), -1] 0.1 k| < 0.0001) ∧
    irrLoop [(-1 : ℚ), -1] 0.1 1 = newtonIter [(-1 : ℚ), -1] 0.1 1 * 100 := by
  have hyp : ∀ k, k < 1 →
      ¬ |newtonStep [(-1 : ℚ), -1] (newtonIter [(-1 : ℚ), -1] 0.1 k) -
          newtonIter [(-1 : ℚ), -1] 0.1 k| < 0.0001 := by
    intro k hk
    interval_cases k
    norm_num [newtonIter, newtonStep, npvOf, dnpvOf, abs]
  exact ⟨hyp, irr_budget_exhaustion_returns_estimate [(-1 : ℚ), -1] 0.1 1 hyp⟩

/-- The clock reading from which the source derives its start date
(source lines 193–195): the first day of `month` in `year`.  The source
reads `new Date()` (the wall clock) and normalizes to the 1st of the next
month; the embedding takes the normalized reading as an explicit
parameter, per the spec's determinism note. -/
structure StartDate where
  year : ℕ
  month : ℕ

/-- Two-digit zero padding for the month in the ISO date string. -/
def pad2 (n : ℕ) : String := if n < 10 then "0" ++ toString n else toString n

/-- The per-year ISO date string of source line 288
(`yearDate.toISOString().split('T')[0]`), with the local calendar
modelled as UTC. -/
def fmtDate (d : StartDate) (y : ℕ) : String :=
  toString (d.year + y) ++ "-" ++ pad2 d.month ++ "-01"

/-- One record of `yearlyData` (source lines 62–100). -/
structure YearlyProjection where
  year : ℕ
  date : String
  propertyValue : ℚ
  outstandingLoan : ℚ
  annualLoanPayment : ℚ
  interestPaid : ℚ
  principalRepaid : ℚ
  grossRent : ℚ
  effectiveRent : ℚ
  totalOperatingCosts : ℚ
  depreciation : ℚ
  taxableIncome : ℚ
  taxSavings : ℚ
  grossCashFlow : ℚ
  netCashFlow : ℚ
  equity : ℚ
  netWorth : ℚ
  cumulativeCashFlow : ℚ
  cumulativeTaxSavings : ℚ

/-- The summary block of `ProjectionResults` (source lines 104–119). -/
structure Summary where
  totalInvestment : ℚ
  irr10Year : ℚ
  irr20Year : ℚ
  irr40Year : ℚ
  totalCashFlow10Year : ℚ
  totalCashFlow20Year : ℚ
  totalCashFlow40Year : ℚ
  netWorth10Year : ℚ
  netWorth20Year : ℚ
  netWorth40Year : ℚ
  averageAnnualCashFlow : ℚ
  roiAtYear10 : ℚ
  roiAtYear20 : ℚ
  roiAtYear40 : ℚ

/-- `ProjectionResults` (source lines 102–120). -/
structure ProjectionResults where
  yearlyData : List YearlyProjection
  summary : Summary

/-- Property value with appreciation (source line 209). -/
def propertyValueAt (i : PropertyInputs) (y : ℕ) : ℚ :=
  i.purchasePrice * (1 + i.propertyValueIncreaseRate / 100) ^ y

/-- Gross rent with increases (source line 212). -/
def grossRentAt (i : PropertyInputs) (y : ℕ) : ℚ :=
  i.monthlyRent * 12 * (1 + i.rentIncreaseRate / 100) ^ y

/-- Effective rent after vacancy (source line 213). -/
def effectiveRentAt (i : PropertyInputs) (y : ℕ) : ℚ :=
  grossRentAt i y * (1 - i.vacancyRate / 100)

/-- Sum of the four monthly operating-cost categories (source
lines 216–221). -/
def monthlyOperatingCostsOf (i : PropertyInputs) : ℚ :=
  i.monthlyPropertyManagement + i.monthlyMaintenance + i.monthlyInsurance +
    i.monthlyOtherCosts

/-- Total operating costs with inflation (source line 222). -/
def totalOperatingCostsAt (i : PropertyInputs) (y : ℕ) : ℚ :=
  monthlyOperatingCostsOf i * 12 * (1 + i.operatingCostsIncreaseRate / 100) ^ y

/-- Straight-line depreciation on the building value, which is 80% of the
purchase price (source lines 202 and 254). -/
def depreciationOf (i : PropertyInputs) : ℚ :=
  i.purchasePrice * 0.8 * (i.depreciationRate / 100)

/-- Outstanding loan at the start of year `y` (source lines 229–246). -/
def outstandingLoanOf (i : PropertyInputs) (y : ℕ) : ℚ :=
  outstandingLoanAt (loanAmount i) (annualPaymentRateOf i.interestRate i.repaymentRate) y

/-- Annual loan payment of year `y` (source line 249). -/
def annualLoanPaymentOf (i : PropertyInputs) (y : ℕ) : ℚ :=
  annualLoanPaymentAt (loanAmount i) i.interestRate i.repaymentRate y

/-- Interest paid in year `y` (source line 250). -/
def interestPaidOf (i : PropertyInputs) (y : ℕ) : ℚ :=
  interestPaidAt (loanAmount i) i.interestRate i.repaymentRate y

/-- Principal repaid in year `y` (source line 251). -/
def principalRepaidOf (i : PropertyInputs) (y : ℕ) : ℚ :=
  principalRepaidAt (loanAmount i) i.interestRate i.repaymentRate y

/-- Taxable rental income of year `y` (source line 257), may be
negative. -/
def taxableRentalIncomeAt (i : PropertyInputs) (y : ℕ) : ℚ :=
  effectiveRentAt i y - totalOperatingCostsAt i y - interestPaidOf i y -
    depreciationOf i

/-- Tax savings (or liability when negative) of year `y` (source
lines 260–273): `|loss|·marginalRate` on a rental loss, the symmetric
negative value on a profit, each inflated ×1.08 under church tax. -/
def taxSavingsAt (i : PropertyInputs) (y : ℕ) : ℚ :=
  if taxableRentalIncomeAt i y < 0 then
    let s := |taxableRentalIncomeAt i y| * (i.marginalTaxRate / 100)
    if i.churchTaxLiability then s * 1.08 else s
  else
    let s := -taxableRentalIncomeAt i y * (i.marginalTaxRate / 100)
    if i.churchTaxLiability then s * 1.08 else s

/-- Gross cash flow of year `y` (source line 276). -/
def grossCashFlowAt (i : PropertyInputs) (y : ℕ) : ℚ :=
  effectiveRentAt i y - totalOperatingCostsAt i y - annualLoanPaymentOf i y

/-- Net cash flow of year `y` (source line 277). -/
def netCashFlowAt (i : PropertyInputs) (y : ℕ) : ℚ :=
  grossCashFlowAt i y + taxSavingsAt i y

/-- The running total `cumulativeCashFlow += netCashFlow` (source
line 279), expressed as the prefix sum up to and including year `y`. -/
def cumulativeCashFlowAt (i : PropertyInputs) : ℕ → ℚ
  | 0 => netCashFlowAt i 0
  | y + 1 => cumulativeCashFlowAt i y + netCashFlowAt i (y + 1)

/-- The running total `cumulativeTaxSavings += taxSavings` (source
line 280) as a prefix sum. -/
def cumulativeTaxSavingsAt (i : PropertyInputs) : ℕ → ℚ
  | 0 => taxSavingsAt i 0
  | y + 1 => cumulativeTaxSavingsAt i y + taxSavingsAt i (y + 1)

/-- Equity of year `y` (source line 283). -/
def equityAt (i : PropertyInputs) (y : ℕ) : ℚ :=
  propertyValueAt i y - outstandingLoanOf i y

/-- Net worth of year `y` (source line 284). -/
def netWorthAt (i : PropertyInputs) (y : ℕ) : ℚ :=
  equityAt i y + cumulativeCashFlowAt i y

/-- The record pushed for loop index `y` (source lines 286–306). -/
def yearRecordAt (i : PropertyInputs) (d : StartDate) (y : ℕ) : YearlyProjection :=
  { year := y + 1
    date := fmtDate d y
    propertyValue := propertyValueAt i y
    outstandingLoan := outstandingLoanOf i y
    annualLoanPayment := annualLoanPaymentOf i y
    interestPaid := interestPaidOf i y
    principalRepaid := principalRepaidOf i y
    grossRent := grossRentAt i y
    effectiveRent := effectiveRentAt i y
    totalOperatingCosts := totalOperatingCostsAt i y
    depreciation := depreciationOf i
    taxableIncome := taxableRentalIncomeAt i y
    taxSavings := taxSavingsAt i y
    grossCashFlow := grossCashFlowAt i y
    netCashFlow := netCashFlowAt i y
    equity := equityAt i y
    netWorth := netWorthAt i y
    cumulativeCashFlow := cumulativeCashFlowAt i y
    cumulativeTaxSavings := cumulativeTaxSavingsAt i y }

/-- The summary block computation (source lines 335–366).  `[n]?`-lookups
with `.getD 0` model the source's `yearlyData[n]?.field || 0`; at
`years = 0` the average is `0/0`, modelled as `0` where JS yields NaN. -/
def summaryOf (totalInvestment : ℚ) (yearlyData : List YearlyProjection) : Summary :=
  let cashFlows10 := (yearlyData.take 10).map (fun r => r.netCashFlow)
  let cashFlows20 := (yearlyData.take 20).map (fun r => r.netCashFlow)
  let cashFlows40 := yearlyData.map (fun r => r.netCashFlow)
  let finalEquity10 := ((yearlyData[9]?).map (fun r => r.equity)).getD 0
  let finalEquity20 := ((yearlyData[19]?).map (fun r => r.equity)).getD 0
  let finalEquity40 := ((yearlyData[39]?).map (fun r => r.equity)).getD 0
  { totalInvestment := totalInvestment
    irr10Year := if 10 ≤ cashFlows10.length then
        calculateIRR (cashFlows10.dropLast ++ [(cashFlows10[9]?).getD 0 + finalEquity10])
          totalInvestment
      else 0
    irr20Year := if 20 ≤ cashFlows20.length then
        calculateIRR (cashFlows20.dropLast ++ [(cashFlows20[19]?).getD 0 + finalEquity20])
          totalInvestment
      else 0
    irr40Year := if 40 ≤ cashFlows40.length then
        calculateIRR (cashFlows40.dropLast ++ [(cashFlows40[39]?).getD 0 + finalEquity40])
          totalInvestment
      else 0
    totalCashFlow10Year := ((yearlyData[9]?).map (fun r => r.cumulativeCashFlow)).getD 0
    totalCashFlow20Year := ((yearlyData[19]?).map (fun r => r.cumulativeCashFlow)).getD 0
    totalCashFlow40Year := ((yearlyData[39]?).map (fun r => r.cumulativeCashFlow)).getD 0
    netWorth10Year := ((yearlyData[9]?).map (fun r => r.netWorth)).getD 0
    netWorth20Year := ((yearlyData[19]?).map (fun r => r.netWorth)).getD 0
    netWorth40Year := ((yearlyData[39]?).map (fun r => r.netWorth)).getD 0
    averageAnnualCashFlow :=
      ((yearlyData[min 39 (yearlyData.length - 1)]?).map
        (fun r => r.cumulativeCashFlow)).getD 0 / (min 40 yearlyData.length : ℚ)
    roiAtYear10 :=
      ((yearlyData[9]?).map (fun r => (r.netWorth / totalInvestment - 1) * 100)).getD 0
    roiAtYear20 :=
      ((yearlyData[19]?).map (fun r => (r.netWorth / totalInvestment - 1) * 100)).getD 0
    roiAtYear40 :=
      ((yearlyData[39]?).map (fun r => (r.netWorth / totalInvestment - 1) * 100)).getD 0 }

/-- `calculateProjections` (source lines 181–368): builds the ordered
year records for loop indices `0 ≤ y < years` and the summary;
`totalInvestment` is the equity (source line 191). -/
def calculateProjections (inputs : PropertyInputs) (years : ℕ) (d : StartDate) :
    ProjectionResults :=
  let yearlyData := (List.range years).map (yearRecordAt inputs d)
  { yearlyData := yearlyData
    summary := summaryOf inputs.equity yearlyData }

/-- The engine invocation of source line 814: the caller passes the
currently displayed horizon `projectionYears` as the `years` argument. -/
def baseProjection (inputs : PropertyInputs) (projectionYears : ℕ) (d : StartDate) :
    ProjectionResults :=
  calculateProjections inputs projectionYears d

/-- C1 amended: the number of year records produced equals the `years`
argument — `calculateProjections` computes exactly as many years as the
horizon its caller passes (40 only when invoked with 40), not always
40. -/
theorem calculateProjections_length (i : PropertyInputs) (years : ℕ) (d : StartDate) :
    (calculateProjections i years d).yearlyData.length = years := by
  simp [calculateProjections]

/-- A concrete input set: fully equity-financed (zero loan), rent 2/month,
all growth, cost, and tax parameters zero, 1200% interest rate (the rate
is irrelevant at zero principal but keeps the annuity arithmetic
simple). -/
def exampleInputs : PropertyInputs :=
  { purchasePrice := 100
    notaryAndLandRegistryFees := 0
    realEstateTransferTax := 0
    brokerCommission := 0
    renovationCosts := 0
    equity := 100
    interestRate := 1200
    repaymentRate := 0
    monthlyRent := 2
    monthlyPropertyManagement := 0
    monthlyMaintenance := 0
    monthlyInsurance := 0
    monthlyOtherCosts := 0
    rentIncreaseRate := 0
    propertyValueIncreaseRate := 0
    operatingCostsIncreaseRate := 0
    annualIncome := 0
    maritalStatus := .single
    marginalTaxRate := 0
    churchTaxLiability := false
    vacancyRate := 0
    depreciationRate := 0 }

/-- C1 counterexample: the engine is invoked with the currently displayed
horizon (`projectionYears`, here 10), producing only 10 year records —
not 40 — and the 20- and 40-year summary scalars fall back to 0 instead of
being populated. -/
theorem baseProjection_short_horizon :
    (baseProjection exampleInputs 10 ⟨2025, 1⟩).yearlyData.length ≠ 40 ∧
    (baseProjection exampleInputs 10 ⟨2025, 1⟩).summary.irr20Year = 0 ∧
    (baseProjection exampleInputs 10 ⟨2025, 1⟩).summary.irr40Year = 0 := by
  refine ⟨?_, ?_, ?_⟩
  · simp [baseProjection, calculateProjections]
  · simp [baseProjection, calculateProjections, summaryOf]
  · simp [baseProjection, calculateProjections, summaryOf]

/-- Erase the (clock-derived) date string of a year record. -/
def stripRec (r : YearlyProjection) : YearlyProjection := { r with date := "" }

/-- A projection result with all date strings erased. -/
def stripResult (p : ProjectionResults) : ProjectionResults :=
  { yearlyData := p.yearlyData.map stripRec, summary := p.summary }

theorem map_strip_field (f : YearlyProjection → ℚ)
    (hf : ∀ r, f (stripRec r) = f r) {l₁ l₂ : List YearlyProjection}
    (h : l₁.map stripRec = l₂.map stripRec) : l₁.map f = l₂.map f := by
  have e₁ : l₁.map f = l₁.map (f ∘ stripRec) :=
    List.map_congr_left fun a _ => (hf a).symm
  have e₂ : l₂.map f = l₂.map (f ∘ stripRec) :=
    List.map_congr_left fun a _ => (hf a).symm
  rw [e₁, e₂, ← List.map_map, ← List.map_map, h]

theorem getElem_strip_field (f : YearlyProjection → ℚ)
    (hf : ∀ r, f (stripRec r) = f r) {l₁ l₂ : List YearlyProjection}
    (h : l₁.map stripRec = l₂.map stripRec) (n : ℕ) :
    (l₁[n]?).map f = (l₂[n]?).map f := by
  have h1 := congrArg (fun l => l[n]?) (map_strip_field f hf h)
  simpa using h1

/-- The summary block depends only on the date-erased year records. -/
theorem summaryOf_congr (t : ℚ) {l₁ l₂ : List YearlyProjection}
    (h : l₁.map stripRec = l₂.map stripRec) : summaryOf t l₁ = summaryOf t l₂ := by
  have hlen : l₁.length = l₂.length := by
    have h1 := congrArg List.length h
    simpa using h1
  have htake10 : (l₁.take 10).map stripRec = (l₂.take 10).map stripRec := by
    rw [List.map_take, List.map_take, h]
  have htake20 : (l₁.take 20).map stripRec = (l₂.take 20).map stripRec := by
    rw [List.map_take, List.map_take, h]
  have hcf10 := map_strip_field (fun r => r.netCashFlow) (fun r => rfl) htake10
  have hcf20 := map_strip_field (fun r => r.netCashFlow) (fun r => rfl) htake20
  have hcf40 := map_strip_field (fun r => r.netCashFlow) (fun r => rfl) h
  have heq9 := getElem_strip_field (fun r => r.equity) (fun r => rfl) h 9
  have heq19 := getElem_strip_field (fun r => r.equity) (fun r => rfl) h 19
  have heq39 := getElem_strip_field (fun r => r.equity) (fun r => rfl) h 39
  have hccf9 := getElem_strip_field (fun r => r.cumulativeCashFlow) (fun r => rfl) h 9
  have hccf19 := getElem_strip_field (fun r => r.cumulativeCashFlow) (fun r => rfl) h 19
  have hccf39 := getElem_strip_field (fun r => r.cumulativeCashFlow) (fun r => rfl) h 39
  have hnw9 := getElem_strip_field (fun r => r.netWorth) (fun r => rfl) h 9
  have hnw19 := getElem_strip_field (fun r => r.netWorth) (fun r => rfl) h 19
  have hnw39 := getElem_strip_field (fun r => r.netWorth) (fun r => rfl) h 39
  have hroi9 := getElem_strip_field
    (fun r => (r.netWorth / t - 1) * 100) (fun r => rfl) h 9
  have hroi19 := getElem_strip_field
    (fun r => (r.netWorth / t - 1) * 100) (fun r => rfl) h 19
  have hroi39 := getElem_strip_field
    (fun r => (r.netWorth / t - 1) * 100) (fun r => rfl) h 39
  have havg := getElem_strip_field (fun r => r.cumulativeCashFlow) (fun r => rfl) h
    (min 39 (l₁.length - 1))
  simp only [summaryOf]
  rw [hcf10, hcf20, hcf40, heq9, heq19, heq39, hccf9, hccf19, hccf39,
    hnw9, hnw19, hnw39, hroi9, hroi19, hroi39, havg, hlen]

/-- C8 amended: the projection is a pure function of `(inputs, years,
start date)`; with the clock reading held fixed two invocations agree in
every field, and the clock influences only the per-year date strings —
all other fields are identical across any two clock readings. -/
theorem projection_clock_independent_except_dates (i : PropertyInputs)
    (years : ℕ) (d d' : StartDate) :
    stripResult (calculateProjections i years d) =
      stripResult (calculateProjections i years d') := by
  have h : ((List.range years).map (yearRecordAt i d)).map stripRec =
      ((List.range years).map (yearRecordAt i d')).map stripRec := by
    rw [List.map_map, List.map_map]
    exact List.map_congr_left fun a _ => rfl
  simp only [stripResult, calculateProjections]
  congr 1
  exact summaryOf_congr i.equity h

/-- C8 counterexample: with identical `PropertyInputs`, two invocations
under clock readings one month apart differ — the per-year date strings
are derived from the wall clock (`new Date()`), so the result is not
identical in every field across invocations. -/
theorem projection_depends_on_clock :
    calculateProjections exampleInputs 40 ⟨2025, 1⟩ ≠
      calculateProjections exampleInputs 40 ⟨2025, 2⟩ := by
  intro hEq
  have h := congrArg (fun p => (p.yearlyData.map (fun r => r.date))[0]?) hEq
  dsimp only at h
  have h1 : ((calculateProjections exampleInputs 40 ⟨2025, 1⟩).yearlyData.map
      (fun r => r.date))[0]? = some "2025-01-01" := rfl
  have h2 : ((calculateProjections exampleInputs 40 ⟨2025, 2⟩).yearlyData.map
      (fun r => r.date))[0]? = some "2025-02-01" := rfl
  rw [h1, h2] at h
  exact absurd h (by decide)

theorem annualLoanPaymentAt_succ_le {L ir rr : ℚ} (hL : 0 < L)
    (hir : 0 < ir) (hrr : 0 < rr) (y : ℕ) :
    annualLoanPaymentAt L ir rr (y + 1) ≤ annualLoanPaymentAt L ir rr y := by
  have hc : 0 < annualPaymentRateOf ir rr := by
    unfold annualPaymentRateOf
    linarith
  have hbal := outstandingLoanAt_succ_le hc hL y
  unfold annualLoanPaymentAt
  split_ifs with h1 h2 h2
  · exact mul_le_mul_of_nonneg_right hbal (le_of_lt hc)
  · exact absurd (lt_of_lt_of_le h1 hbal) h2
  · exact mul_nonneg (le_max_left 0 _) (le_of_lt hc)
  · exact le_refl 0

/-- C10: in every projected year whose start-of-year outstanding balance
`B` is positive, the reported loan split satisfies
`annualLoanPayment = B·(interestRate + repaymentRate)/100`,
`interestPaid = B·interestRate/100` and
`principalRepaid = B·repaymentRate/100` exactly; consequently the
reported annual payment is non-increasing from year to year as the
balance falls, rather than the constant internal annuity payment. -/
theorem reported_loan_split (i : PropertyInputs) (d : StartDate) (y : ℕ)
    (hL : 0 < loanAmount i) (hir : 0 < i.interestRate) (hrr : 0 < i.repaymentRate) :
    (0 < (yearRecordAt i d y).outstandingLoan →
      (yearRecordAt i d y).annualLoanPayment =
        (yearRecordAt i d y).outstandingLoan *
          ((i.interestRate + i.repaymentRate) / 100) ∧
      (yearRecordAt i d y).interestPaid =
        (yearRecordAt i d y).outstandingLoan * (i.interestRate / 100) ∧
      (yearRecordAt i d y).principalRepaid =
        (yearRecordAt i d y).outstandingLoan * (i.repaymentRate / 100)) ∧
    (yearRecordAt i d (y + 1)).annualLoanPayment ≤
      (yearRecordAt i d y).annualLoanPayment := by
  constructor
  · intro hB
    simp only [yearRecordAt] at hB ⊢
    unfold outstandingLoanOf at hB
    unfold annualLoanPaymentOf interestPaidOf principalRepaidOf outstandingLoanOf
    unfold principalRepaidAt annualLoanPaymentAt interestPaidAt
    rw [if_pos hB]
    refine ⟨by unfold annualPaymentRateOf; ring, rfl, ?_⟩
    unfold annualPaymentRateOf
    ring
  · simp only [yearRecordAt]
    unfold annualLoanPaymentOf
    exact annualLoanPaymentAt_succ_le hL hir hrr y

/-- A concrete financed input set: 80,000 loan at 3.75% interest and
1.4% repayment. -/
def loanInputs : PropertyInputs :=
  { purchasePrice := 100000
    notaryAndLandRegistryFees := 0
    realEstateTransferTax := 0
    brokerCommission := 0
    renovationCosts := 0
    equity := 20000
    interestRate := 3.75
    repaymentRate := 1.4
    monthlyRent := 500
    monthlyPropertyManagement := 0
    monthlyMaintenance := 0
    monthlyInsurance := 0
    monthlyOtherCosts := 0
    rentIncreaseRate := 0
    propertyValueIncreaseRate := 0
    operatingCostsIncreaseRate := 0
    annualIncome := 0
    maritalStatus := .single
    marginalTaxRate := 42
    churchTaxLiability := false
    vacancyRate := 0
    depreciationRate := 2 }

/-- Witness for `reported_loan_split` at the concrete financed loan. -/
theorem reported_loan_split_witness :
    0 < loanAmount loanInputs ∧ 0 < loanInputs.interestRate ∧
    0 < loanInputs.repaymentRate ∧
    ((0 < (yearRecordAt loanInputs ⟨2025, 1⟩ 0).outstandingLoan →
      (yearRecordAt loanInputs ⟨2025, 1⟩ 0).annualLoanPayment =
        (yearRecordAt loanInputs ⟨2025, 1⟩ 0).outstandingLoan *
          ((loanInputs.interestRate + loanInputs.repaymentRate) / 100) ∧
      (yearRecordAt loanInputs ⟨2025, 1⟩ 0).interestPaid =
        (yearRecordAt loanInputs ⟨2025, 1⟩ 0).outstandingLoan *
          (loanInputs.interestRate / 100) ∧
      (yearRecordAt loanInputs ⟨2025, 1⟩ 0).principalRepaid =
        (yearRecordAt loanInputs ⟨2025, 1⟩ 0).outstandingLoan *
          (loanInputs.repaymentRate / 100)) ∧
    (yearRecordAt loanInputs ⟨2025, 1⟩ 1).annualLoanPayment ≤
      (yearRecordAt loanInputs ⟨2025, 1⟩ 0).annualLoanPayment) :=
  ⟨by norm_num [loanAmount, acquisitionCosts, loanInputs],
   by norm_num [loanInputs], by norm_num [loanInputs],
   reported_loan_split loanInputs ⟨2025, 1⟩ 0
     (by norm_num [loanAmount, acquisitionCosts, loanInputs])
     (by norm_num [loanInputs]) (by norm_num [loanInputs])⟩

/-- Enumeration of the numeric fields of `PropertyInputs`; the source
addresses them dynamically via `keyof PropertyInputs`. -/
inductive PKey where
  | purchasePrice
  | notaryAndLandRegistryFees
  | realEstateTransferTax
  | brokerCommission
  | renovationCosts
  | equity
  | interestRate
  | repaymentRate
  | monthlyRent
  | monthlyPropertyManagement
  | monthlyMaintenance
  | monthlyInsurance
  | monthlyOtherCosts
  | rentIncreaseRate
  | propertyValueIncreaseRate
  | operatingCostsIncreaseRate
  | annualIncome
  | marginalTaxRate
  | vacancyRate
  | depreciationRate
deriving DecidableEq

/-- The spread-with-computed-key override `{ ...inputs, [key]: value }`
used by the sensitivity layers (source lines 850, 855, 906–910). -/
def setKey (i : PropertyInputs) : PKey → ℚ → PropertyInputs
  | .purchasePrice, v => { i with purchasePrice := v }
  | .notaryAndLandRegistryFees, v => { i with notaryAndLandRegistryFees := v }
  | .realEstateTransferTax, v => { i with realEstateTransferTax := v }
  | .brokerCommission, v => { i with brokerCommission := v }
  | .renovationCosts, v => { i with renovationCosts := v }
  | .equity, v => { i with equity := v }
  | .interestRate, v => { i with interestRate := v }
  | .repaymentRate, v => { i with repaymentRate := v }
  | .monthlyRent, v => { i with monthlyRent := v }
  | .monthlyPropertyManagement, v => { i with monthlyPropertyManagement := v }
  | .monthlyMaintenance, v => { i with monthlyMaintenance := v }
  | .monthlyInsurance, v => { i with monthlyInsurance := v }
  | .monthlyOtherCosts, v => { i with monthlyOtherCosts := v }
  | .rentIncreaseRate, v => { i with rentIncreaseRate := v }
  | .propertyValueIncreaseRate, v => { i with propertyValueIncreaseRate := v }
  | .operatingCostsIncreaseRate, v => { i with operatingCostsIncreaseRate := v }
  | .annualIncome, v => { i with annualIncome := v }
  | .marginalTaxRate, v => { i with marginalTaxRate := v }
  | .vacancyRate, v => { i with vacancyRate := v }
  | .depreciationRate, v => { i with depreciationRate := v }

/-- The metric selector `'irr10'|'irr20'|'irr40'|'cashflow'|'networth'`
(source lines 805, 811). -/
inductive Metric where
  | irr10
  | irr20
  | irr40
  | cashflow
  | networth
deriving DecidableEq

/-- The metric extraction switch shared by the tornado and heatmap layers
(source lines 830–844 and 883–897): cashflow/networth pull the summary
scalar matching the displayed horizon. -/
def getMetricValue (projectionYears : ℕ) (metric : Metric)
    (projection : ProjectionResults) : ℚ :=
  match metric with
  | .irr10 => projection.summary.irr10Year
  | .irr20 => projection.summary.irr20Year
  | .irr40 => projection.summary.irr40Year
  | .cashflow =>
    if projectionYears = 10 then projection.summary.totalCashFlow10Year
    else if projectionYears = 20 then projection.summary.totalCashFlow20Year
    else projection.summary.totalCashFlow40Year
  | .networth =>
    if projectionYears = 10 then projection.summary.netWorth10Year
    else if projectionYears = 20 then projection.summary.netWorth20Year
    else projection.summary.netWorth40Year

/-- A `SensitivityVariable` descriptor (source lines 46–54). -/
structure SensitivityVariable where
  name : String
  key : PKey
  min : ℚ
  max : ℚ
  step : ℚ
  unit : String
  currentValue : ℚ

/-- The sensitivity-variable catalog (source lines 783–792). -/
def sensitivityVariables (inputs : PropertyInputs) : List SensitivityVariable :=
  [ { name := "Interest Rate", key := .interestRate, min := 2, max := 6,
      step := 0.25, unit := "%", currentValue := inputs.interestRate },
    { name := "Rent Increase", key := .rentIncreaseRate, min := 1, max := 5,
      step := 0.5, unit := "%", currentValue := inputs.rentIncreaseRate },
    { name := "Property Value Increase", key := .propertyValueIncreaseRate,
      min := 0, max := 5, step := 0.5, unit := "%",
      currentValue := inputs.propertyValueIncreaseRate },
    { name := "Operating Costs Increase", key := .operatingCostsIncreaseRate,
      min := 1, max := 4, step := 0.5, unit := "%",
      currentValue := inputs.operatingCostsIncreaseRate },
    { name := "Vacancy Rate", key := .vacancyRate, min := 0, max := 10,
      step := 1, unit := "%", currentValue := inputs.vacancyRate },
    { name := "Marginal Tax Rate", key := .marginalTaxRate, min := 30, max := 50,
      step := 1, unit := "%", currentValue := inputs.marginalTaxRate },
    { name := "Repayment Rate", key := .repaymentRate, min := 1, max := 3,
      step := 0.2, unit := "%", currentValue := inputs.repaymentRate },
    { name := "Depreciation Rate", key := .depreciationRate, min := 1, max := 3,
      step := 0.5, unit := "%", currentValue := inputs.depreciationRate } ]

/-- One bar of the tornado chart (source lines 859–865); `varName` is the
source's `variable` field (a reserved word here), storing the absolute
metric values, not deltas. -/
structure TornadoPoint where
  varName : String
  minImpact : ℚ
  maxImpact : ℚ
  baseValue : ℚ
  range : ℚ

/-- `tornadoData` (source lines 827–867): one min- and one max-projection
per catalog variable, then a stable descending sort by
`range = |maxValue − minValue|` (the comparator `b.range - a.range` of
source line 866, embedded as a stable insertion sort). -/
def tornadoData (inputs : PropertyInputs) (d : StartDate) (projectionYears : ℕ)
    (vars : List SensitivityVariable) (metric : Metric) : List TornadoPoint :=
  let baseValue := getMetricValue projectionYears metric
    (calculateProjections inputs projectionYears d)
  List.insertionSort (fun a b => b.range ≤ a.range)
    (vars.map fun v =>
      let minValue := getMetricValue projectionYears metric
        (calculateProjections (setKey inputs v.key v.min) projectionYears d)
      let maxValue := getMetricValue projectionYears metric
        (calculateProjections (setKey inputs v.key v.max) projectionYears d)
      { varName := v.name
        minImpact := minValue
        maxImpact := maxValue
        baseValue := baseValue
        range := |maxValue - minValue| })

/-- The sort key asserted by the specification for the tornado chart:
`|minImpact − base| + |maxImpact − base|` (modelled from the spec's words
for comparison against the source's `range` key). -/
def specSortKey (p : TornadoPoint) : ℚ :=
  |p.minImpact - p.baseValue| + |p.maxImpact - p.baseValue|

/-- One heatmap cell (source lines 899, 915–921).  The source stores
`xLabel`/`yLabel` as `toFixed(2)` strings of the test values; the
embedding records the raw test values. -/
structure HeatmapPoint where
  x : ℕ
  y : ℕ
  xLabel : ℚ
  yLabel : ℚ
  value : ℚ

/-- `heatmapData` (source lines 870–926): looks the two axis variables up
in the catalog (empty result when either is missing), generates 5 evenly
spaced test values per axis with step `(max − min)/(5 − 1)`, and runs one
full projection per cell of the 5×5 grid, outer loop over the y-axis. -/
def heatmapData (inputs : PropertyInputs) (d : StartDate) (projectionYears : ℕ)
    (vars : List SensitivityVariable) (heatmapVarX heatmapVarY : PKey)
    (metric : Metric) : List HeatmapPoint :=
  match vars.find? (fun v => v.key == heatmapVarX),
      vars.find? (fun v => v.key == heatmapVarY) with
  | some varX, some varY =>
    let stepSizeX := (varX.max - varX.min) / (5 - 1)
    let stepSizeY := (varY.max - varY.min) / (5 - 1)
    (List.range 5).flatMap fun (i : ℕ) =>
      (List.range 5).map fun (j : ℕ) =>
        let xValue := varX.min + (j : ℚ) * stepSizeX
        let yValue := varY.min + (i : ℚ) * stepSizeY
        let testInputs := setKey (setKey inputs heatmapVarX xValue) heatmapVarY yValue
        { x := j, y := i, xLabel := xValue, yLabel := yValue,
          value := getMetricValue projectionYears metric
            (calculateProjections testInputs projectionYears d) }
  | _, _ => []

/-- `getColor` of the heatmap renderer (source lines 439–451): the
normalization `(value − min)/(max − min)` mapped onto an rgb triple.
Rational division is total with `q/0 = 0`, standing in for the
JavaScript `NaN` of the degenerate `max = min` case; under neither
semantics does a fixed-midpoint default exist. -/
def getColor (value minV maxV : ℚ) : ℤ × ℤ × ℤ :=
  let normalized := (value - minV) / (maxV - minV)
  if normalized < 0.5 then
    (255, round (255 * normalized * 2), 100)
  else
    (round (255 * (1 - (normalized - 0.5) * 2)), 255, 100)

/-- C9: `getColor` has no guard for `max = min`: the normalization
`(value − min)/(max − min)` is evaluated unconditionally.  At a
degenerate range the embedding's total division yields normalized = 0 and
the bottom-of-scale color `(255, 0, 100)` (JavaScript produces NaN
components instead); in neither semantics does the claimed fixed-midpoint
default — which would be the color `(255, 255, 100)` of
normalized = 0.5 — exist. -/
theorem getColor_degenerate_range (v m : ℚ) :
    getColor v m m = (255, 0, 100) ∧ getColor v m m ≠ (255, 255, 100) := by
  have h : getColor v m m = (255, 0, 100) := by
    unfold getColor
    rw [sub_self, div_zero]
    norm_num
  exact ⟨h, by rw [h]; intro hc; injection hc with h1 h2; injection h2 with h2 h3; norm_num at h2⟩

theorem flatMapGrid_length (f : ℕ → ℕ → HeatmapPoint) :
    ((List.range 5).flatMap fun i => (List.range 5).map (f i)).length = 25 := rfl

theorem flatMapGrid_getElem (f : ℕ → ℕ → HeatmapPoint) (i j : ℕ)
    (hi : i < 5) (hj : j < 5) :
    ((List.range 5).flatMap fun a => (List.range 5).map (f a))[i * 5 + j]? =
      some (f i j) := by
  interval_cases i <;> interval_cases j <;> rfl

/-- The cell the heatmap is claimed to produce at grid position `(i, j)`
(row `i` on the y-axis, column `j` on the x-axis): test values at the
quartile fractions of each axis range and the selected metric of a full
projection run with both variables overridden on top of the base
inputs. -/
def heatmapCell (inputs : PropertyInputs) (d : StartDate) (years : ℕ)
    (kX kY : PKey) (metric : Metric) (vX vY : SensitivityVariable)
    (i j : ℕ) : HeatmapPoint :=
  { x := j
    y := i
    xLabel := vX.min + (j : ℚ) * ((vX.max - vX.min) / (5 - 1))
    yLabel := vY.min + (i : ℚ) * ((vY.max - vY.min) / (5 - 1))
    value := getMetricValue years metric (calculateProjections
      (setKey (setKey inputs kX (vX.min + (j : ℚ) * ((vX.max - vX.min) / (5 - 1))))
        kY (vY.min + (i : ℚ) * ((vY.max - vY.min) / (5 - 1)))) years d) }

/-- C4: when both axis keys resolve to catalog variables, the heatmap has
exactly 25 cells; cell `(i,j)` carries the quartile test values
`min + (j/4)·(max − min)` per axis and the selected metric of a full
projection with both variables overridden (all other inputs at base);
and the grid corners carry exactly the min and max of each axis
variable. -/
theorem heatmap_grid_sound (inputs : PropertyInputs) (d : StartDate) (years : ℕ)
    (vars : List SensitivityVariable) (kX kY : PKey) (metric : Metric)
    (vX vY : SensitivityVariable)
    (hX : vars.find? (fun v => v.key == kX) = some vX)
    (hY : vars.find? (fun v => v.key == kY) = some vY) :
    (heatmapData inputs d years vars kX kY metric).length = 25 ∧
    (∀ i j : ℕ, i < 5 → j < 5 →
      (heatmapData inputs d years vars kX kY metric)[i * 5 + j]? =
        some (heatmapCell inputs d years kX kY metric vX vY i j)) ∧
    (heatmapCell inputs d years kX kY metric vX vY 0 0).xLabel = vX.min ∧
    (heatmapCell inputs d years kX kY metric vX vY 0 4).xLabel = vX.max ∧
    (heatmapCell inputs d years kX kY metric vX vY 0 0).yLabel = vY.min ∧
    (heatmapCell inputs d years kX kY metric vX vY 4 0).yLabel = vY.max := by
  have hunf : heatmapData inputs d years vars kX kY metric =
      (List.range 5).flatMap fun i => (List.range 5).map fun j =>
        heatmapCell inputs d years kX kY metric vX vY i j := by
    unfold heatmapData
    rw [hX, hY]
    rfl
  refine ⟨?_, ?_, ?_, ?_, ?_, ?_⟩
  · rw [hunf]
    exact flatMapGrid_length _
  · intro i j hi hj
    rw [hunf]
    exact flatMapGrid_getElem _ i j hi hj
  · simp [heatmapCell]
  · show vX.min + ((4 : ℕ) : ℚ) * ((vX.max - vX.min) / (5 - 1)) = vX.max
    push_cast
    ring
  · simp [heatmapCell]
  · show vY.min + ((4 : ℕ) : ℚ) * ((vY.max - vY.min) / (5 - 1)) = vY.max
    push_cast
    ring

/-- Witness for `heatmap_grid_sound`: the source catalog of
`exampleInputs` with the default axes interest rate and rent increase. -/
theorem heatmap_grid_sound_witness :
    ((sensitivityVariables exampleInputs).find?
        (fun v => v.key == PKey.interestRate) = some
      { name := "Interest Rate", key := .interestRate, min := 2, max := 6,
        step := 0.25, unit := "%", currentValue := exampleInputs.interestRate }) ∧
    ((sensitivityVariables exampleInputs).find?
        (fun v => v.key == PKey.rentIncreaseRate) = some
      { name := "Rent Increase", key := .rentIncreaseRate, min := 1, max := 5,
        step := 0.5, unit := "%", currentValue := exampleInputs.rentIncreaseRate }) ∧
    ((heatmapData exampleInputs ⟨2025, 1⟩ 10 (sensitivityVariables exampleInputs)
        PKey.interestRate PKey.rentIncreaseRate Metric.cashflow).length = 25 ∧
    (∀ i j : ℕ, i < 5 → j < 5 →
      (heatmapData exampleInputs ⟨2025, 1⟩ 10 (sensitivityVariables exampleInputs)
          PKey.interestRate PKey.rentIncreaseRate Metric.cashflow)[i * 5 + j]? =
        some (heatmapCell exampleInputs ⟨2025, 1⟩ 10 PKey.interestRate
          PKey.rentIncreaseRate Metric.cashflow
          { name := "Interest Rate", key := .interestRate, min := 2, max := 6,
            step := 0.25, unit := "%", currentValue := exampleInputs.interestRate }
          { name := "Rent Increase", key := .rentIncreaseRate, min := 1, max := 5,
            step := 0.5, unit := "%", currentValue := exampleInputs.rentIncreaseRate }
          i j)) ∧
    (heatmapCell exampleInputs ⟨2025, 1⟩ 10 PKey.interestRate
      PKey.rentIncreaseRate Metric.cashflow
      { name := "Interest Rate", key := .interestRate, min := 2, max := 6,
        step := 0.25, unit := "%", currentValue := exampleInputs.interestRate }
      { name := "Rent Increase", key := .rentIncreaseRate, min := 1, max := 5,
        step := 0.5, unit := "%", currentValue := exampleInputs.rentIncreaseRate }
      0 0).xLabel = 2 ∧
    (heatmapCell exampleInputs ⟨2025, 1⟩ 10 PKey.interestRate
      PKey.rentIncreaseRate Metric.cashflow
      { name := "Interest Rate", key := .interestRate, min := 2, max := 6,
        step := 0.25, unit := "%", currentValue := exampleInputs.interestRate }
      { name := "Rent Increase", key := .rentIncreaseRate, min := 1, max := 5,
        step := 0.5, unit := "%", currentValue := exampleInputs.rentIncreaseRate }
      0 4).xLabel = 6 ∧
    (heatmapCell exampleInputs ⟨2025, 1⟩ 10 PKey.interestRate
      PKey.rentIncreaseRate Metric.cashflow
      { name := "Interest Rate", key := .interestRate, min := 2, max := 6,
        step := 0.25, unit := "%", currentValue := exampleInputs.interestRate }
      { name := "Rent Increase", key := .rentIncreaseRate, min := 1, max := 5,
        step := 0.5, unit := "%", currentValue := exampleInputs.rentIncreaseRate }
      0 0).yLabel = 1 ∧
    (heatmapCell exampleInputs ⟨2025, 1⟩ 10 PKey.interestRate
      PKey.rentIncreaseRate Metric.cashflow
      { name := "Interest Rate", key := .interestRate, min := 2, max := 6,
        step := 0.25, unit := "%", currentValue := exampleInputs.interestRate }
      { name := "Rent Increase", key := .rentIncreaseRate, min := 1, max := 5,
        step := 0.5, unit := "%", currentValue := exampleInputs.rentIncreaseRate }
      4 0).yLabel = 5) :=
  ⟨rfl, rfl, heatmap_grid_sound exampleInputs ⟨2025, 1⟩ 10
    (sensitivityVariables exampleInputs) PKey.interestRate PKey.rentIncreaseRate
    Metric.cashflow _ _ rfl rfl⟩

instance : IsTotal TornadoPoint (fun a b => b.range ≤ a.range) :=
  ⟨fun a b => le_total b.range a.range⟩

instance : IsTrans TornadoPoint (fun a b => b.range ≤ a.range) :=
  ⟨fun _ _ _ hab hbc => le_trans hbc hab⟩

/-- C3 amended: the tornado list is sorted in descending order by the
`range` key `|maxImpact − minImpact|` (the source comparator
`b.range - a.range`) — not by `|minImpact − base| + |maxImpact − base|`;
the two keys agree only when the base metric value lies between the min-
and max-impact values. -/
theorem tornado_sorted_by_range (inputs : PropertyInputs) (d : StartDate)
    (projectionYears : ℕ) (vars : List SensitivityVariable) (metric : Metric) :
    List.Sorted (fun a b : TornadoPoint => b.range ≤ a.range)
      (tornadoData inputs d projectionYears vars metric) := by
  unfold tornadoData
  exact List.sorted_insertionSort _ _

theorem outstandingLoanRaw_zeroL (c : ℚ) (y : ℕ) : outstandingLoanRaw 0 c y = 0 := by
  unfold outstandingLoanRaw
  split_ifs <;> simp

theorem outstandingLoanAt_zeroL (c : ℚ) (y : ℕ) : outstandingLoanAt 0 c y = 0 := by
  unfold outstandingLoanAt
  rw [outstandingLoanRaw_zeroL, max_self]

/-- The constant annual net cash flow of a degenerate input set: no rent
or cost growth, no loan, no tax effect. -/
def flatCF (i : PropertyInputs) : ℚ :=
  i.monthlyRent * 12 * (1 - i.vacancyRate / 100) - monthlyOperatingCostsOf i * 12

theorem netCashFlowAt_flat (i : PropertyInputs)
    (h1 : i.rentIncreaseRate = 0) (h2 : i.operatingCostsIncreaseRate = 0)
    (h3 : loanAmount i = 0) (h4 : i.marginalTaxRate = 0) (y : ℕ) :
    netCashFlowAt i y = flatCF i := by
  unfold netCashFlowAt grossCashFlowAt taxSavingsAt taxableRentalIncomeAt
  unfold annualLoanPaymentOf interestPaidOf
  rw [h3]
  unfold annualLoanPaymentAt interestPaidAt
  rw [outstandingLoanAt_zeroL]
  unfold effectiveRentAt grossRentAt totalOperatingCostsAt flatCF
  rw [h1, h2, h4]
  split_ifs <;> norm_num

theorem cumulativeCashFlowAt_flat (i : PropertyInputs)
    (h1 : i.rentIncreaseRate = 0) (h2 : i.operatingCostsIncreaseRate = 0)
    (h3 : loanAmount i = 0) (h4 : i.marginalTaxRate = 0) (y : ℕ) :
    cumulativeCashFlowAt i y = ((y : ℚ) + 1) * flatCF i := by
  induction y with
  | zero =>
    unfold cumulativeCashFlowAt
    rw [netCashFlowAt_flat i h1 h2 h3 h4]
    norm_num
  | succ y ih =>
    show cumulativeCashFlowAt i y + netCashFlowAt i (y + 1) = _
    rw [ih, netCashFlowAt_flat i h1 h2 h3 h4]
    push_cast
    ring

theorem metric_cashflow_flat (i : PropertyInputs) (d : StartDate)
    (h1 : i.rentIncreaseRate = 0) (h2 : i.operatingCostsIncreaseRate = 0)
    (h3 : loanAmount i = 0) (h4 : i.marginalTaxRate = 0) :
    getMetricValue 10 Metric.cashflow (calculateProjections i 10 d) =
      10 * flatCF i := by
  have h9 : getMetricValue 10 Metric.cashflow (calculateProjections i 10 d) =
      cumulativeCashFlowAt i 9 := by
    simp [getMetricValue, calculateProjections, summaryOf, List.getElem?_map,
      List.getElem?_range, yearRecordAt]
  rw [h9, cumulativeCashFlowAt_flat i h1 h2 h3 h4]
  norm_num

/-- A catalog entry sweeping the vacancy rate over [50, 100] (a valid
descriptor: min < max, currentValue within [min, max], positive step),
while the base input keeps vacancy 0 — the source never reconciles the
descriptor with the live input value. -/
def vacancyVar : SensitivityVariable :=
  { name := "Vacancy Rate", key := .vacancyRate, min := 50, max := 100,
    step := 1, unit := "%", currentValue := 50 }

/-- A catalog entry sweeping the monthly rent over [0, 2]. -/
def monthlyRentVar : SensitivityVariable :=
  { name := "Monthly Rent", key := .monthlyRent, min := 0, max := 2,
    step := 1, unit := "EUR", currentValue := 2 }

/-- C3 counterexample: on `exampleInputs` with the two-variable catalog
[vacancyVar, monthlyRentVar] and the 10-year cashflow metric, the rent
variable has range |240 − 0| = 240 and spec key 240, while the vacancy
variable has range |0 − 120| = 120 but spec key |120 − 240| + |0 − 240|
= 360; the source sorts by range, producing [rent, vacancy] with spec
keys [240, 360] — not in descending order by the claimed key. -/
theorem tornado_not_sorted_by_spec_key :
    ¬ List.Sorted (fun a b : TornadoPoint => specSortKey b ≤ specSortKey a)
      (tornadoData exampleInputs ⟨2025, 1⟩ 10 [vacancyVar, monthlyRentVar]
        Metric.cashflow) := by
  have hb : getMetricValue 10 Metric.cashflow
      (calculateProjections exampleInputs 10 ⟨2025, 1⟩) = 240 := by
    rw [metric_cashflow_flat exampleInputs ⟨2025, 1⟩ rfl rfl
      (by norm_num [loanAmount, acquisitionCosts, exampleInputs]) rfl]
    norm_num [flatCF, monthlyOperatingCostsOf, exampleInputs]
  have hv50 : getMetricValue 10 Metric.cashflow
      (calculateProjections (setKey exampleInputs PKey.vacancyRate 50) 10
        ⟨2025, 1⟩) = 120 := by
    rw [metric_cashflow_flat _ ⟨2025, 1⟩ rfl rfl
      (by norm_num [loanAmount, acquisitionCosts, setKey, exampleInputs]) rfl]
    norm_num [flatCF, monthlyOperatingCostsOf, setKey, exampleInputs]
  have hv100 : getMetricValue 10 Metric.cashflow
      (calculateProjections (setKey exampleInputs PKey.vacancyRate 100) 10
        ⟨2025, 1⟩) = 0 := by
    rw [metric_cashflow_flat _ ⟨2025, 1⟩ rfl rfl
      (by norm_num [loanAmount, acquisitionCosts, setKey, exampleInputs]) rfl]
    norm_num [flatCF, monthlyOperatingCostsOf, setKey, exampleInputs]
  have hr0 : getMetricValue 10 Metric.cashflow
      (calculateProjections (setKey exampleInputs PKey.monthlyRent 0) 10
        ⟨2025, 1⟩) = 0 := by
    rw [metric_cashflow_flat _ ⟨2025, 1⟩ rfl rfl
      (by norm_num [loanAmount, acquisitionCosts, setKey, exampleInputs]) rfl]
    norm_num [flatCF, monthlyOperatingCostsOf, setKey, exampleInputs]
  have hr2 : getMetricValue 10 Metric.cashflow
      (calculateProjections (setKey exampleInputs PKey.monthlyRent 2) 10
        ⟨2025, 1⟩) = 240 := by
    rw [metric_cashflow_flat _ ⟨2025, 1⟩ rfl rfl
      (by norm_num [loanAmount, acquisitionCosts, setKey, exampleInputs]) rfl]
    norm_num [flatCF, monthlyOperatingCostsOf, setKey, exampleInputs]
  have hlist : tornadoData exampleInputs ⟨2025, 1⟩ 10 [vacancyVar, monthlyRentVar]
      Metric.cashflow =
      [ { varName := "Monthly Rent", minImpact := 0, maxImpact := 240,
          baseValue := 240, range := 240 },
        { varName := "Vacancy Rate", minImpact := 120, maxImpact := 0,
          baseValue := 240, range := 120 } ] := by
    unfold tornadoData
    simp only [List.map_cons, List.map_nil, vacancyVar, monthlyRentVar]
    rw [hb, hv50, hv100, hr0, hr2]
    norm_num [List.insertionSort, List.orderedInsert]
  rw [hlist]
  simp only [List.sorted_cons, List.mem_cons, List.mem_singleton]
  intro h
  have h1 := (h.1 _ (Or.inl rfl))
  norm_num [specSortKey] at h1
